import Mathlib

/-!
# Quick Bazaar server: a shallow embedding of `src/index.js`

The server is an Express application with twelve routes over five collections
of an external document store.  The embedding follows the source file top to
bottom:

* the document store (the MongoDB driver calls the handlers issue) is an
  external collaborator; it is modelled by pure functions over lists of
  documents, with an explicit per-request `Oracle` deciding whether the
  store call throws and which fresh identifier the driver generates;
* `connectToDatabase` and `run` are state-passing functions over the two
  module-level variables `cachedClient` / `cachedDb` and the route table of
  the application;
* every route handler is a function returning the response, the store after
  the request, the store operations issued and the lines logged.

Scope of the value model: a field value is any JSON value (null, boolean,
number, string, array, nested document) or an object identifier.  A number is
a rational or one of the two infinities, which covers every value an IEEE
double can take after `JSON.parse`; the rounding that `express.json()`
applies to the digits sent by the client is a function of the `Platform`.
A response body is the value handed to `res.send`; its JSON text is not
modelled.
-/

namespace QuickBazaar

/-! ## Documents and the store -/

/-- The store's native unique identifier (a 12-byte value, kept as a number). -/
structure ObjectId where
  val : Nat
deriving DecidableEq, Repr

/-- A number: a rational, or an infinity (what `JSON.parse` gives for digits
beyond the range of a double). -/
inductive JNum where
  | fin (q : ℚ)
  | posInf
  | negInf
deriving DecidableEq, Repr

/-- Field values of a document: the JSON values and the object identifier. -/
inductive JVal where
  | null
  | bool (b : Bool)
  | num (n : JNum)
  | str (s : String)
  | oid (i : ObjectId)
  | arr (xs : List JVal)
  | doc (fields : List (String × JVal))
deriving Repr

mutual
/-- Structural equality test on values. -/
def JVal.beq : JVal → JVal → Bool
  | .null, .null => true
  | .bool a, .bool b => a == b
  | .num a, .num b => a == b
  | .str a, .str b => a == b
  | .oid a, .oid b => a == b
  | .arr xs, .arr ys => JVal.beqList xs ys
  | .doc xs, .doc ys => JVal.beqFields xs ys
  | _, _ => false
/-- Structural equality test on arrays. -/
def JVal.beqList : List JVal → List JVal → Bool
  | [], [] => true
  | x :: xs, y :: ys => JVal.beq x y && JVal.beqList xs ys
  | _, _ => false
/-- Structural equality test on field lists. -/
def JVal.beqFields : List (String × JVal) → List (String × JVal) → Bool
  | [], [] => true
  | (k, x) :: xs, (l, y) :: ys => k == l && JVal.beq x y && JVal.beqFields xs ys
  | _, _ => false
end

mutual
theorem JVal.beq_iff : ∀ (a b : JVal), JVal.beq a b = true ↔ a = b
  | .null, b => by cases b <;> simp [JVal.beq]
  | .bool x, b => by cases b <;> simp [JVal.beq]
  | .num x, b => by cases b <;> simp [JVal.beq]
  | .str x, b => by cases b <;> simp [JVal.beq]
  | .oid x, b => by cases b <;> simp [JVal.beq]
  | .arr xs, b => by
    cases b <;> simp [JVal.beq]
    exact JVal.beqList_iff xs _
  | .doc xs, b => by
    cases b <;> simp [JVal.beq]
    exact JVal.beqFields_iff xs _
theorem JVal.beqList_iff : ∀ (xs ys : List JVal), JVal.beqList xs ys = true ↔ xs = ys
  | [], ys => by cases ys <;> simp [JVal.beqList]
  | x :: xs, ys => by
    cases ys with
    | nil => simp [JVal.beqList]
    | cons y ys => simp [JVal.beqList, JVal.beq_iff x y, JVal.beqList_iff xs ys]
theorem JVal.beqFields_iff :
    ∀ (xs ys : List (String × JVal)), JVal.beqFields xs ys = true ↔ xs = ys
  | [], ys => by cases ys <;> simp [JVal.beqFields]
  | (k, x) :: xs, ys => by
    cases ys with
    | nil => simp [JVal.beqFields]
    | cons y ys =>
      obtain ⟨l, y⟩ := y
      simp [JVal.beqFields, JVal.beq_iff x y, JVal.beqFields_iff xs ys, and_assoc]
end

instance : DecidableEq JVal := fun a b => decidable_of_iff _ (JVal.beq_iff a b)

/-- A document: its fields in order.  `List.lookup` reads a field. -/
abbrev Doc := List (String × JVal)

/-- The five collections of database `QuickBazaarDB` (source lines 52-56). -/
structure Store where
  categories : List Doc
  products : List Doc
  sorts : List Doc
  comment : List Doc
  addProducts : List Doc
deriving DecidableEq, Repr

/-- An error thrown by the store driver (code and message). -/
structure StoreError where
  code : Nat
  message : String
deriving DecidableEq, Repr

/-- The three query shapes the source builds: `{}`, `{ field: v }` and
`{ field: { $gt: n } }`. -/
inductive Filter where
  | all
  | eq (field : String) (v : JVal)
  | gt (field : String) (n : ℚ)
deriving DecidableEq, Repr

/-- Library and store behaviour the source relies on but does not define: the
identifier constructor `new ObjectId(s)` (none when it throws), the
percent-decoding the router applies to a path parameter (none when it throws),
the value `express.json()` leaves in `req.body` for the JSON object the client
sent (numbers become doubles), and how the store evaluates a condition whose
value is an object (an operator expression or an embedded document) against
the stored field. -/
structure Platform where
  parseObjectId : String → Option ObjectId
  decodeURIComponent : String → Option String
  jsonBody : Doc → Doc
  queryDoc : Doc → Option JVal → Bool

/-- Whether a number is greater than the rational n. -/
def JNum.gt (x : JNum) (n : ℚ) : Bool :=
  match x with
  | .fin q => decide (n < q)
  | .posInf => true
  | .negInf => false

/-- Whether a value is a number greater than n.  The comparison is
type-bracketed: a value that is not a number is never greater than a number. -/
def above (n : ℚ) : JVal → Bool
  | .num x => x.gt n
  | _ => false

/-- The store's equality condition `{ field: v }` on the stored field (none
when the document lacks it): the field equals v, or the field is an array
with v among its elements; a null v also matches a missing field; an object v
is left to the platform. -/
def eqMatch (P : Platform) (v : JVal) (stored : Option JVal) : Bool :=
  match v with
  | .doc q => P.queryDoc q stored
  | _ =>
    match stored with
    | none => v == .null
    | some (.arr xs) => JVal.arr xs == v || xs.any (fun e => e == v)
    | some w => w == v

/-- Whether a document satisfies a query.  The store never holds an array as
`_id` (it rejects such an insert), so `_id` is compared as a single value;
any other field is matched by `eqMatch`.  The condition `$gt` holds when the
field is a number greater than n or an array with such an element. -/
def Filter.sat (P : Platform) : Filter → Doc → Bool
  | .all, _ => true
  | .eq f v, d => if f = "_id" then d.lookup f == some v else eqMatch P v (d.lookup f)
  | .gt f n, d =>
    match d.lookup f with
    | some (.arr xs) => xs.any (above n)
    | some v => above n v
    | none => false

/-- Result descriptor of `insertOne`. -/
structure InsertResult where
  acknowledged : Bool
  insertedId : JVal
deriving DecidableEq, Repr

/-- Result descriptor of `deleteOne`. -/
structure DeleteResult where
  acknowledged : Bool
  deletedCount : Nat
deriving DecidableEq, Repr

/-- What the environment decides for one request: `fault` is the error the
store call throws (if it throws), `fresh` the identifier the driver generates
for a document inserted without one. -/
structure Oracle where
  fault : Option StoreError
  fresh : ObjectId
deriving DecidableEq, Repr

/-- Store call `collection.find(q).toArray()`. -/
def find (P : Platform) (fault : Option StoreError) (q : Filter) (c : List Doc) :
    Except StoreError (List Doc) :=
  match fault with
  | some e => .error e
  | none => .ok (c.filter (q.sat P))

/-- Store call `collection.findOne(q)`: the first matching document or null. -/
def findOne (P : Platform) (fault : Option StoreError) (q : Filter) (c : List Doc) :
    Except StoreError (Option Doc) :=
  match fault with
  | some e => .error e
  | none => .ok (c.find? (q.sat P))

/-- The driver gives a document whose `_id` is missing or null a generated
identifier before sending it; a document with its own `_id` keeps it.  The
stored document has `_id` as its first field. -/
def assignId (fresh : ObjectId) (doc : Doc) : Doc :=
  match doc.lookup "_id" with
  | none => ("_id", .oid fresh) :: doc
  | some .null => ("_id", .oid fresh) :: doc.filter (fun kv => kv.1 != "_id")
  | some v => ("_id", v) :: doc.filter (fun kv => kv.1 != "_id")

/-- The error of the unique index on `_id` (E11000). -/
def duplicateKey : StoreError := ⟨11000, "E11000 duplicate key error"⟩

/-- The error for a document whose `_id` is an array. -/
def arrayId : StoreError := ⟨2, "The _id value cannot be of type array"⟩

/-- Whether a value is an array. -/
def JVal.isArr : JVal → Bool
  | .arr _ => true
  | _ => false

/-- Store call `collection.insertOne(doc)`: the collection rejects an array as
`_id` and enforces that `_id` is unique; the new document is appended in
natural order. -/
def insertOne (o : Oracle) (doc : Doc) (c : List Doc) :
    Except StoreError (InsertResult × List Doc) :=
  match o.fault with
  | some e => .error e
  | none =>
    let stored := assignId o.fresh doc
    let id := (stored.lookup "_id").getD .null
    if id.isArr then .error arrayId
    else if c.any (fun d => d.lookup "_id" == some id) then .error duplicateKey
    else .ok (⟨true, id⟩, c ++ [stored])

/-- Store call `collection.deleteOne(q)`: removes the first matching document. -/
def deleteOne (P : Platform) (fault : Option StoreError) (q : Filter) (c : List Doc) :
    Except StoreError (DeleteResult × List Doc) :=
  match fault with
  | some e => .error e
  | none =>
    match c.find? (q.sat P) with
    | some d => .ok (⟨true, 1⟩, c.erase d)
    | none => .ok (⟨true, 0⟩, c)

/-! ## Requests, responses, handlers -/

/-- Response bodies: plain text, the framework's HTML error page, or the raw
store result serialised as JSON. -/
inductive Body where
  | text (s : String)
  | html (s : String)
  | docs (ds : List Doc)
  | doc (d : Doc)
  | inserted (r : InsertResult)
  | deleted (r : DeleteResult)
deriving DecidableEq, Repr

/-- An HTTP response. -/
structure Response where
  status : Nat
  body : Body
deriving DecidableEq, Repr

/-- A store operation issued by a handler, with the collection name. -/
inductive StoreOp where
  | find (coll : String) (q : Filter)
  | findOne (coll : String) (q : Filter)
  | insertOne (coll : String) (d : Doc)
  | deleteOne (coll : String) (q : Filter)
deriving DecidableEq, Repr

/-- What a `catch` block receives: a store error or the error of the
identifier constructor on an unparseable string. -/
inductive Thrown where
  | store (e : StoreError)
  | badId (raw : String)
deriving DecidableEq, Repr

/-- A line written with `console.log` or `console.error`. -/
inductive LogEntry where
  | info (msg : String)
  | error (msg : String) (cause : Thrown)
deriving DecidableEq, Repr

/-- Everything observable of one handled request. -/
structure Outcome where
  response : Response
  store : Store
  ops : List StoreOp
  log : List LogEntry
deriving DecidableEq, Repr

/-- The part of the request a handler reads: `req.params.id`, `req.query` and
`req.body` (the JSON body, already parsed by `express.json()`).  `req.query`
is the object the query-string parser built: each parameter name once, its
value a string, an array (a repeated parameter) or an object (bracket
syntax). -/
structure Input where
  id : String
  query : List (String × JVal)
  body : Doc
deriving DecidableEq, Repr

/-- JavaScript truthiness of a property read: `undefined`, null, false, zero
and the empty string are falsy; every array and object is truthy. -/
def truthy : Option JVal → Bool
  | none => false
  | some .null => false
  | some (.bool b) => b
  | some (.num (.fin q)) => q != 0
  | some (.num _) => true
  | some (.str s) => s != ""
  | some _ => true

/-- The filter of the three listing routes with a query parameter
(lines 83-86, 124-127, 150-153): a truthy parameter value is put into the
equality condition as it is. -/
def queryFilter (field : String) (query : List (String × JVal)) : Filter :=
  if truthy (query.lookup field) then
    match query.lookup field with
    | some v => .eq field v
    | none => .all
  else .all

/-- Handler of `GET /category` (lines 59-67). -/
def getCategory (P : Platform) (o : Oracle) (db : Store) : Outcome :=
  match find P o.fault .all db.categories with
  | .ok result => ⟨⟨200, .docs result⟩, db, [.find "categories" .all], []⟩
  | .error e => ⟨⟨500, .text "Internal server error"⟩, db, [.find "categories" .all],
      [.error "Error fetching categories:" (.store e)]⟩

/-- Handler of `POST /products` (lines 70-79). -/
def postProducts (o : Oracle) (body : Doc) (db : Store) : Outcome :=
  match insertOne o body db.products with
  | .ok (result, products) =>
    ⟨⟨200, .inserted result⟩, { db with products := products }, [.insertOne "products" body], []⟩
  | .error e => ⟨⟨500, .text "Internal Server Error"⟩, db, [.insertOne "products" body],
      [.error "Error inserting product:" (.store e)]⟩

/-- Handler of `GET /products` (lines 81-93). -/
def getProducts (P : Platform) (o : Oracle) (query : List (String × JVal)) (db : Store) :
    Outcome :=
  let q := queryFilter "category_name" query
  match find P o.fault q db.products with
  | .ok result => ⟨⟨200, .docs result⟩, db, [.find "products" q], []⟩
  | .error e => ⟨⟨500, .text "Internal server error"⟩, db, [.find "products" q],
      [.error "Error fetching products:" (.store e)]⟩

/-- Handler of `GET /products/discount` (lines 95-103). -/
def getProductsDiscount (P : Platform) (o : Oracle) (db : Store) : Outcome :=
  match find P o.fault (.gt "discount" 25) db.products with
  | .ok result => ⟨⟨200, .docs result⟩, db, [.find "products" (.gt "discount" 25)], []⟩
  | .error e => ⟨⟨500, .text "Internal Server Error"⟩, db,
      [.find "products" (.gt "discount" 25)],
      [.error "Error fetching products with discount:" (.store e)]⟩

/-- Handler of `GET /products/:id` (lines 105-119).  The identifier is built
before the store is called; when the constructor throws, control goes to the
`catch` block without any store operation. -/
def getProductById (P : Platform) (o : Oracle) (id : String) (db : Store) : Outcome :=
  match P.parseObjectId id with
  | none => ⟨⟨500, .text "Internal Server Error"⟩, db, [],
      [.error "Error fetching product by ID:" (.badId id)]⟩
  | some i =>
    let q := Filter.eq "_id" (.oid i)
    match findOne P o.fault q db.products with
    | .ok (some result) => ⟨⟨200, .doc result⟩, db, [.findOne "products" q], []⟩
    | .ok none => ⟨⟨404, .text "Product not found"⟩, db, [.findOne "products" q], []⟩
    | .error e => ⟨⟨500, .text "Internal Server Error"⟩, db, [.findOne "products" q],
        [.error "Error fetching product by ID:" (.store e)]⟩

/-- Handler of `GET /comment` (lines 122-134). -/
def getComment (P : Platform) (o : Oracle) (query : List (String × JVal)) (db : Store) :
    Outcome :=
  let q := queryFilter "product_id" query
  match find P o.fault q db.comment with
  | .ok result => ⟨⟨200, .docs result⟩, db, [.find "comment" q], []⟩
  | .error e => ⟨⟨500, .text "Internal Server Error"⟩, db, [.find "comment" q],
      [.error "Error fetching comments:" (.store e)]⟩

/-- Handler of `POST /comment` (lines 136-145). -/
def postComment (o : Oracle) (body : Doc) (db : Store) : Outcome :=
  match insertOne o body db.comment with
  | .ok (result, comment) =>
    ⟨⟨200, .inserted result⟩, { db with comment := comment }, [.insertOne "comment" body], []⟩
  | .error e => ⟨⟨500, .text "Internal Server Error"⟩, db, [.insertOne "comment" body],
      [.error "Error adding comment:" (.store e)]⟩

/-- Handler of `GET /addProducts` (lines 148-160). -/
def getAddProducts (P : Platform) (o : Oracle) (query : List (String × JVal)) (db : Store) :
    Outcome :=
  let q := queryFilter "email" query
  match find P o.fault q db.addProducts with
  | .ok result => ⟨⟨200, .docs result⟩, db, [.find "addProducts" q], []⟩
  | .error e => ⟨⟨500, .text "Internal Server Error"⟩, db, [.find "addProducts" q],
      [.error "Error fetching added products:" (.store e)]⟩

/-- Handler of `POST /addProducts` (lines 162-171). -/
def postAddProducts (o : Oracle) (body : Doc) (db : Store) : Outcome :=
  match insertOne o body db.addProducts with
  | .ok (result, added) =>
    ⟨⟨200, .inserted result⟩, { db with addProducts := added },
      [.insertOne "addProducts" body], []⟩
  | .error e => ⟨⟨500, .text "Internal Server Error"⟩, db, [.insertOne "addProducts" body],
      [.error "Error adding product:" (.store e)]⟩

/-- Handler of `DELETE /addProducts/:id` (lines 173-187). -/
def deleteAddProducts (P : Platform) (o : Oracle) (id : String) (db : Store) : Outcome :=
  match P.parseObjectId id with
  | none => ⟨⟨500, .text "Internal Server Error"⟩, db, [],
      [.error "Error deleting product:" (.badId id)]⟩
  | some i =>
    let q := Filter.eq "_id" (.oid i)
    match deleteOne P o.fault q db.addProducts with
    | .ok (result, added) =>
      if result.deletedCount = 1 then
        ⟨⟨200, .deleted result⟩, { db with addProducts := added },
          [.deleteOne "addProducts" q], []⟩
      else
        ⟨⟨404, .text "Product not found"⟩, { db with addProducts := added },
          [.deleteOne "addProducts" q], []⟩
    | .error e => ⟨⟨500, .text "Internal Server Error"⟩, db, [.deleteOne "addProducts" q],
        [.error "Error deleting product:" (.store e)]⟩

/-- Handler of `GET /sorts` (lines 190-198). -/
def getSorts (P : Platform) (o : Oracle) (db : Store) : Outcome :=
  match find P o.fault .all db.sorts with
  | .ok result => ⟨⟨200, .docs result⟩, db, [.find "sorts" .all], []⟩
  | .error e => ⟨⟨500, .text "Internal Server Error"⟩, db, [.find "sorts" .all],
      [.error "Error fetching sorts:" (.store e)]⟩

/-- Handler of `GET /` (lines 214-216): static text, no store access. -/
def getRoot (db : Store) : Outcome :=
  ⟨⟨200, .text "Quick Bazaar Server"⟩, db, [], []⟩

/-! ## The route table and the router -/

/-- HTTP methods of the requests considered. -/
inductive Method where
  | GET
  | POST
  | PUT
  | DELETE
deriving DecidableEq, Repr

/-- One name per handler function registered in the source. -/
inductive Handler where
  | root
  | category
  | insertProduct
  | listProducts
  | discount
  | productById
  | listComments
  | insertComment
  | listAddProducts
  | insertAddProduct
  | deleteAddProduct
  | sorts
deriving DecidableEq, Repr

/-- A segment of a route path: literal text or a named parameter `:name`. -/
inductive Seg where
  | lit (s : String)
  | param (name : String)
deriving DecidableEq, Repr

/-- A registered route: `app.METHOD(path, handler)`. -/
structure Route where
  method : Method
  pattern : List Seg
  handler : Handler
deriving DecidableEq, Repr

/-- A request: method, the raw segments of its path (the text between the
slashes, an optional trailing slash dropped), parsed query string and parsed
JSON body. -/
structure Request where
  method : Method
  path : List String
  query : List (String × JVal)
  body : Doc
deriving DecidableEq, Repr

/-- ASCII lower-casing of a string. -/
def lower (s : String) : String := ⟨s.data.map Char.toLower⟩

/-- Matching of a route path against the raw segments of a request path, as
Express does with its default settings (the source enables neither
`case sensitive routing` nor `strict routing`): literal text is compared
ignoring letter case, a parameter takes one non-empty segment.  The result
binds each parameter to its raw segment. -/
def matchSegs : List Seg → List String → Option (List (String × String))
  | [], [] => some []
  | .lit l :: ps, s :: ss => if lower s = lower l then matchSegs ps ss else none
  | .param k :: ps, s :: ss =>
    if s = "" then none else (matchSegs ps ss).map (fun rest => (k, s) :: rest)
  | _, _ => none

/-- The first registered route, in registration order, whose method and path
match the request. -/
def findRoute : List Route → Method → List String → Option (Route × List (String × String))
  | [], _, _ => none
  | r :: rs, m, path =>
    if r.method = m then
      match matchSegs r.pattern path with
      | some raw => some (r, raw)
      | none => findRoute rs m path
    else findRoute rs m path

/-- Percent-decoding of the captured parameters; none when one of them cannot
be decoded. -/
def decodeParams (P : Platform) : List (String × String) → Option (List (String × String))
  | [] => some []
  | (k, v) :: rest =>
    match P.decodeURIComponent v, decodeParams P rest with
    | some t, some ps => some ((k, t) :: ps)
    | _, _ => none

/-- Where the router sends a request. -/
inductive Dispatch where
  | handler (h : Handler) (params : List (String × String))
  | badRequest
  | unmatched
deriving DecidableEq, Repr

/-- First match wins; the parameters of the matched route are decoded before
its handler runs, and a parameter that cannot be decoded ends the request
with the framework's client-error response. -/
def dispatch (P : Platform) (routes : List Route) (m : Method) (path : List String) :
    Dispatch :=
  match findRoute routes m path with
  | none => .unmatched
  | some (r, raw) =>
    match decodeParams P raw with
    | some params => .handler r.handler params
    | none => .badRequest

/-- The root route (line 214). -/
def rootRoute : Route := ⟨.GET, [], .root⟩

/-- The eleven routes registered inside `run`, in source order (lines 59-198). -/
def storeRoutes : List Route :=
  [ ⟨.GET, [.lit "category"], .category⟩,
    ⟨.POST, [.lit "products"], .insertProduct⟩,
    ⟨.GET, [.lit "products"], .listProducts⟩,
    ⟨.GET, [.lit "products", .lit "discount"], .discount⟩,
    ⟨.GET, [.lit "products", .param "id"], .productById⟩,
    ⟨.GET, [.lit "comment"], .listComments⟩,
    ⟨.POST, [.lit "comment"], .insertComment⟩,
    ⟨.GET, [.lit "addProducts"], .listAddProducts⟩,
    ⟨.POST, [.lit "addProducts"], .insertAddProduct⟩,
    ⟨.DELETE, [.lit "addProducts", .param "id"], .deleteAddProduct⟩,
    ⟨.GET, [.lit "sorts"], .sorts⟩ ]

/-- The handler function behind each handler name. -/
def runHandler (P : Platform) (h : Handler) (o : Oracle) (inp : Input) (db : Store) :
    Outcome :=
  match h with
  | .root => getRoot db
  | .category => getCategory P o db
  | .insertProduct => postProducts o inp.body db
  | .listProducts => getProducts P o inp.query db
  | .discount => getProductsDiscount P o db
  | .productById => getProductById P o inp.id db
  | .listComments => getComment P o inp.query db
  | .insertComment => postComment o inp.body db
  | .listAddProducts => getAddProducts P o inp.query db
  | .insertAddProduct => postAddProducts o inp.body db
  | .deleteAddProduct => deleteAddProducts P o inp.id db
  | .sorts => getSorts P o db

/-! ## The connection cache and process start -/

/-- A client object created by `new MongoClient(uri)`. -/
structure Client where
  id : Nat
deriving DecidableEq, Repr

/-- A database handle `client.db(name)`. -/
structure Db where
  client : Client
  name : String
deriving DecidableEq, Repr

/-- The value `connectToDatabase` resolves to: `{ client, db }`. -/
structure Session where
  client : Option Client
  db : Db
deriving DecidableEq, Repr

/-- Module-level state of the process: the two cache variables, the clients
whose `connect()` has succeeded, the route table of `app`, whether the server
listens, and the console. -/
structure Process where
  cachedClient : Option Client
  cachedDb : Option Db
  opened : List Client
  routes : List Route
  listening : Bool
  log : List LogEntry
deriving DecidableEq, Repr

/-- The process at module load, before any statement has run. -/
def Process.init : Process := ⟨none, none, [], [], false, []⟩

/-- Function `connectToDatabase` (lines 26-44).  `attempt` is what creating a
client and awaiting `client.connect()` gives if the call gets that far: the
connected client, or the error thrown. -/
def connectToDatabase (attempt : Except StoreError Client) (s : Process) :
    Except StoreError Session × Process :=
  match s.cachedDb with
  | some db => (.ok ⟨s.cachedClient, db⟩, s)
  | none =>
    match attempt with
    | .error e => (.error e, s)
    | .ok client =>
      let db : Db := ⟨client, "QuickBazaarDB"⟩
      (.ok ⟨some client, db⟩,
        { s with cachedClient := some client, cachedDb := some db,
                 opened := s.opened ++ [client],
                 log := s.log ++ [.info "Connected to MongoDB successfully!"] })

/-- The state after a sequence of calls of `connectToDatabase`. -/
def connectAll : List (Except StoreError Client) → Process → Process
  | [], s => s
  | a :: rest, s => connectAll rest (connectToDatabase a s).2

/-- Function `run` (lines 46-209) from the point where the awaited connection
settles: on success the eleven store routes are registered and the deployment
is pinged; on failure the `catch` block logs and nothing is registered. -/
def run (attempt : Except StoreError Client) (ping : Option StoreError) (s : Process) :
    Process :=
  match connectToDatabase attempt s with
  | (.error e, s1) =>
    { s1 with log := s1.log ++ [.error "Error connecting to MongoDB:" (.store e)] }
  | (.ok _, s1) =>
    let s2 := { s1 with routes := s1.routes ++ storeRoutes }
    match ping with
    | some e => { s2 with log := s2.log ++ [.error "Error connecting to MongoDB:" (.store e)] }
    | none =>
      { s2 with log := s2.log ++
          [.info "Pinged your deployment. Successfully connected to MongoDB!"] }

/-- Module load (lines 211-221).  `run()` suspends at its first `await`, so the
root route is registered and the server listens before the connection
settles; the rest of `run` follows. -/
def startup (port : String) (attempt : Except StoreError Client)
    (ping : Option StoreError) : Process :=
  let s0 := Process.init
  let s1 := { s0 with routes := s0.routes ++ [rootRoute] }
  let s2 := { s1 with listening := true,
                      log := s1.log ++ [.info ("Quick Bazaar Server is running on port " ++ port)] }
  run attempt ping s2

/-- Rendering of a method and of a path, for the framework's error page. -/
def Method.name : Method → String
  | .GET => "GET"
  | .POST => "POST"
  | .PUT => "PUT"
  | .DELETE => "DELETE"

/-- The request path as text. -/
def pathText (path : List String) : String := "/" ++ "/".intercalate path

/-- One request served by the process: the router picks the handler; a request
no route matches gets the framework's default not-found page, and no handler
of the application runs. -/
def serve (P : Platform) (app : Process) (o : Oracle) (req : Request) (db : Store) :
    Outcome :=
  match dispatch P app.routes req.method req.path with
  | .handler h params =>
    runHandler P h o ⟨(params.lookup "id").getD "", req.query, req.body⟩ db
  | .badRequest => ⟨⟨400, .html "Bad Request"⟩, db, [], []⟩
  | .unmatched =>
    ⟨⟨404, .html ("Cannot " ++ req.method.name ++ " " ++ pathText req.path)⟩, db, [], []⟩

/-! ## A concrete platform for examples -/

/-- Value of a hexadecimal digit. -/
def hexDigit (c : Char) : Option Nat :=
  if '0' ≤ c ∧ c ≤ '9' then some (c.toNat - '0'.toNat)
  else if 'a' ≤ c ∧ c ≤ 'f' then some (c.toNat - 'a'.toNat + 10)
  else if 'A' ≤ c ∧ c ≤ 'F' then some (c.toNat - 'A'.toNat + 10)
  else none

/-- Value of a string of hexadecimal digits. -/
def hexValue : List Char → Nat → Option Nat
  | [], acc => some acc
  | c :: cs, acc =>
    match hexDigit c with
    | some d => hexValue cs (16 * acc + d)
    | none => none

/-- An identifier constructor accepting exactly the 24-digit hexadecimal
strings. -/
def hexObjectId (s : String) : Option ObjectId :=
  if s.data.length = 24 then (hexValue s.data 0).map ObjectId.mk else none

/-- Percent-decoding restricted to ASCII escapes. -/
def pctDecode : List Char → Option (List Char)
  | [] => some []
  | c :: rest =>
    if c = '%' then
      match rest with
      | a :: b :: tail =>
        match hexDigit a, hexDigit b with
        | some x, some y =>
          if 16 * x + y < 128 then (pctDecode tail).map (fun t => Char.ofNat (16 * x + y) :: t)
          else none
        | _, _ => none
      | _ => none
    else (pctDecode rest).map (fun t => c :: t)

/-- Nearest integer to the fraction n/d, a tie going to the even neighbour. -/
def roundEven (n d : Nat) : Nat :=
  let q := n / d
  let r := n % d
  if 2 * r < d then q else if d < 2 * r then q + 1 else if q % 2 = 0 then q else q + 1

/-- Binary logarithm, rounded down, by repeated halving. -/
def log2Fuel : Nat → Nat → Nat
  | 0, _ => 0
  | fuel + 1, n => if n < 2 then 0 else log2Fuel fuel (n / 2) + 1

/-- Binary logarithm of a positive number, rounded down. -/
def log2 (n : Nat) : Nat := log2Fuel n n

/-- The IEEE double nearest to a rational (53 significant bits, ties to even,
gradual underflow, overflow to an infinity): the number `JSON.parse` gives for
the digits of that rational. -/
def roundDouble (x : ℚ) : JNum :=
  if x.num = 0 then .fin 0 else
  let n := x.num.natAbs
  let d := x.den
  let e0 : Int := (log2 n : Int) - (log2 d : Int)
  let ge : Bool :=
    if 0 ≤ e0 then decide (d * 2 ^ e0.toNat ≤ n) else decide (d ≤ n * 2 ^ (-e0).toNat)
  let e : Int := if ge then e0 else e0 - 1
  let p : Int := max e (-1022) - 52
  let m : Nat :=
    if 0 ≤ p then roundEven n (d * 2 ^ p.toNat) else roundEven (n * 2 ^ (-p).toNat) d
  let sign : Int := if 0 < x.num then 1 else -1
  if 0 ≤ p then
    if 2 ^ 256 * 2 ^ 256 * 2 ^ 256 * 2 ^ 256 ≤ m * 2 ^ p.toNat then
      (if 0 < x.num then .posInf else .negInf)
    else .fin ((sign * (m * 2 ^ p.toNat : Nat) : Int) : ℚ)
  else .fin (mkRat (sign * m) (2 ^ (-p).toNat))

mutual
/-- Every number of a value replaced by its nearest double. -/
def ieeeVal : JVal → JVal
  | .num (.fin q) => .num (roundDouble q)
  | .arr xs => .arr (ieeeList xs)
  | .doc fs => .doc (ieeeFields fs)
  | v => v
/-- Rounding of the numbers of an array. -/
def ieeeList : List JVal → List JVal
  | [] => []
  | x :: xs => ieeeVal x :: ieeeList xs
/-- Rounding of the numbers of a field list. -/
def ieeeFields : List (String × JVal) → List (String × JVal)
  | [] => []
  | (k, x) :: xs => (k, ieeeVal x) :: ieeeFields xs
end

/-- The platform used in the concrete examples below: 24-digit hexadecimal
identifiers, ASCII percent-decoding, a body parser that rounds every number
to its nearest double, and a store that takes an object-valued condition as
an embedded document to be matched exactly (operator expressions are not
evaluated by this example platform). -/
def asciiPlatform : Platform :=
  ⟨hexObjectId, fun s => (pctDecode s.data).map String.mk, ieeeFields,
    fun q stored => stored == some (.doc q)⟩

/-- The documents of a listing response (empty for any other body). -/
def Response.documents (r : Response) : List Doc :=
  match r.body with
  | .docs ds => ds
  | _ => []

/-- A small store used in the concrete examples. -/
def sampleStore : Store :=
  ⟨[], [[("_id", .oid ⟨1⟩), ("category_name", .str "phones"), ("discount", .num (.fin 26))],
        [("_id", .oid ⟨2⟩), ("category_name", .str "books"), ("discount", .num (.fin 25))],
        [("_id", .oid ⟨3⟩), ("category_name", .arr [.str "books", .str "phones"]),
          ("discount", .arr [.num (.fin 10), .num (.fin 30)])],
        [("_id", .oid ⟨4⟩), ("category_name", .str "toys"),
          ("discount", .num (.fin (mkRat 51 2)))]],
   [], [], [[("_id", .oid ⟨7⟩), ("email", .str "a@b.c")]]⟩

/-- The cache invariant of `connectToDatabase`: both variables are set
together, and exactly when a connection has been opened. -/
def CacheInv (s : Process) : Prop :=
  (s.cachedDb = none ∧ s.cachedClient = none ∧ s.opened = [])
    ∨ (∃ c : Client, s.cachedDb = some ⟨c, "QuickBazaarDB"⟩ ∧ s.cachedClient = some c
        ∧ s.opened = [c])

/-! ## Theorems -/

theorem queryFilter_of_str (field : String) (query : List (String × JVal)) (X : String)
    (hq : query.lookup field = some (.str X)) (hX : X ≠ "") :
    queryFilter field query = .eq field (.str X) := by
  simp [queryFilter, hq, truthy, hX]

theorem eqMatch_str (P : Platform) (X : String) (s : Option JVal) :
    eqMatch P (.str X) s = true
      ↔ s = some (.str X) ∨ ∃ xs : List JVal, s = some (.arr xs) ∧ JVal.str X ∈ xs := by
  cases s with
  | none => simp [eqMatch]
  | some w => cases w <;> simp [eqMatch, List.any_eq_true]

theorem JNum.gt_iff (x : JNum) (n : ℚ) :
    x.gt n = true ↔ (∃ q : ℚ, x = .fin q ∧ n < q) ∨ x = .posInf := by
  cases x <;> simp [JNum.gt]

theorem above_iff (n : ℚ) (v : JVal) :
    above n v = true ↔ ∃ x : JNum, v = .num x ∧ x.gt n = true := by
  cases v <;> simp [above]

theorem sat_gt_iff (P : Platform) (n : ℚ) (d : Doc) :
    Filter.sat P (.gt "discount" n) d = true
      ↔ (∃ x : JNum, d.lookup "discount" = some (.num x) ∧ x.gt n = true)
        ∨ ∃ (xs : List JVal) (x : JNum),
            d.lookup "discount" = some (.arr xs) ∧ JVal.num x ∈ xs ∧ x.gt n = true := by
  simp only [Filter.sat]
  cases h : d.lookup "discount" with
  | none => simp
  | some v =>
    cases v with
    | arr xs =>
      simp only [List.any_eq_true, above_iff]
      constructor
      · rintro ⟨e, he, x, hx, hg⟩
        exact Or.inr ⟨xs, x, rfl, hx ▸ he, hg⟩
      · rintro (⟨x, hx, _⟩ | ⟨ys, x, hy, hm, hg⟩)
        · simp at hx
        · simp at hy
          subst hy
          exact ⟨.num x, hm, x, rfl, hg⟩
    | null => simp [above]
    | bool b => simp [above]
    | str s => simp [above]
    | oid i => simp [above]
    | doc f => simp [above]
    | num x => simp [above]

/-- C1 (counterexample): with the empty string as `category_name` the handler
takes the parameter as absent and lists every product, among them one whose
`category_name` is `phones`. -/
theorem getProducts_empty_category_name_lists_all :
    ([("_id", .oid ⟨1⟩), ("category_name", .str "phones"), ("discount", .num (.fin 26))] : Doc)
        ∈ (getProducts asciiPlatform ⟨none, ⟨0⟩⟩ [("category_name", .str "")]
            sampleStore).response.documents
      ∧ ([("_id", .oid ⟨1⟩), ("category_name", .str "phones"),
            ("discount", .num (.fin 26))] : Doc).lookup "category_name" ≠ some (.str "") := by
  decide

/-- C1 (amended): for every store state and every non-empty string X that is
the value of the `category_name` query parameter, the success response of
`GET /products` is the list of exactly the products whose `category_name`
field equals X or is an array with X among its elements. -/
theorem getProducts_filter_correct (P : Platform) (o : Oracle) (db : Store)
    (query : List (String × JVal)) (X : String)
    (hq : query.lookup "category_name" = some (.str X)) (hX : X ≠ "") (hok : o.fault = none) :
    (getProducts P o query db).response
        = ⟨200, .docs (db.products.filter
            (fun d => Filter.sat P (.eq "category_name" (.str X)) d))⟩
      ∧ ∀ d : Doc, d ∈ (getProducts P o query db).response.documents
          ↔ d ∈ db.products
            ∧ (d.lookup "category_name" = some (.str X)
              ∨ ∃ xs : List JVal, d.lookup "category_name" = some (.arr xs)
                  ∧ JVal.str X ∈ xs) := by
  have hf := queryFilter_of_str "category_name" query X hq hX
  have hne : ("category_name" = "_id") = False := by decide
  constructor
  · simp only [getProducts, hf, find, hok]
  · intro d
    simp only [getProducts, hf, find, hok, Response.documents, List.mem_filter, Filter.sat,
      hne, if_false, eqMatch_str]

/-- C1 at a concrete request: `category_name=books` on the sample store lists
the product whose field is `books` and the one whose field is an array
containing `books`. -/
theorem getProducts_filter_correct_witness :
    (getProducts asciiPlatform ⟨none, ⟨0⟩⟩ [("category_name", .str "books")] sampleStore).response
        = ⟨200, .docs (sampleStore.products.filter
            (fun d => Filter.sat asciiPlatform (.eq "category_name" (.str "books")) d))⟩
      ∧ ∀ d : Doc,
          d ∈ (getProducts asciiPlatform ⟨none, ⟨0⟩⟩ [("category_name", .str "books")]
                sampleStore).response.documents
          ↔ d ∈ sampleStore.products
            ∧ (d.lookup "category_name" = some (.str "books")
              ∨ ∃ xs : List JVal, d.lookup "category_name" = some (.arr xs)
                  ∧ JVal.str "books" ∈ xs) :=
  getProducts_filter_correct asciiPlatform ⟨none, ⟨0⟩⟩ sampleStore
    [("category_name", .str "books")] "books" (by decide) (by decide) rfl

/-- C2 (counterexample): a product whose `discount` is the array `[10, 30]`,
not a number, is in the response of `GET /products/discount`. -/
theorem getProductsDiscount_lists_array_discount :
    ([("_id", .oid ⟨3⟩), ("category_name", .arr [.str "books", .str "phones"]),
          ("discount", .arr [.num (.fin 10), .num (.fin 30)])] : Doc)
        ∈ (getProductsDiscount asciiPlatform ⟨none, ⟨0⟩⟩ sampleStore).response.documents
      ∧ ([("_id", .oid ⟨3⟩), ("category_name", .arr [.str "books", .str "phones"]),
          ("discount", .arr [.num (.fin 10), .num (.fin 30)])] : Doc).lookup "discount"
        = some (.arr [.num (.fin 10), .num (.fin 30)]) := by
  decide

/-- C2 (amended): when the store call succeeds, `GET /products/discount` lists
exactly the products whose `discount` is a number strictly greater than 25
(a rational above 25, or positive infinity) or an array with such a number
among its elements.  For a product with a finite numeric discount q that
means: listed exactly when 25 < q; so discount 25 is never listed and a
stored product with discount 26 always is. -/
theorem getProductsDiscount_threshold (P : Platform) (fresh : ObjectId) (db : Store) :
    (getProductsDiscount P ⟨none, fresh⟩ db).response
        = ⟨200, .docs (db.products.filter (fun d => Filter.sat P (.gt "discount" 25) d))⟩
      ∧ (∀ d : Doc, d ∈ (getProductsDiscount P ⟨none, fresh⟩ db).response.documents
          ↔ d ∈ db.products
            ∧ ((∃ x : JNum, d.lookup "discount" = some (.num x)
                  ∧ ((∃ q : ℚ, x = .fin q ∧ 25 < q) ∨ x = .posInf))
              ∨ ∃ (xs : List JVal) (x : JNum), d.lookup "discount" = some (.arr xs)
                  ∧ JVal.num x ∈ xs ∧ ((∃ q : ℚ, x = .fin q ∧ 25 < q) ∨ x = .posInf)))
      ∧ (∀ (d : Doc) (q : ℚ), d ∈ db.products → d.lookup "discount" = some (.num (.fin q))
          → (d ∈ (getProductsDiscount P ⟨none, fresh⟩ db).response.documents ↔ 25 < q))
      ∧ (∀ d : Doc, d.lookup "discount" = some (.num (.fin 25))
          → d ∉ (getProductsDiscount P ⟨none, fresh⟩ db).response.documents)
      ∧ (∀ d : Doc, d ∈ db.products → d.lookup "discount" = some (.num (.fin 26))
          → d ∈ (getProductsDiscount P ⟨none, fresh⟩ db).response.documents) := by
  have key : ∀ d : Doc, d ∈ (getProductsDiscount P ⟨none, fresh⟩ db).response.documents
      ↔ d ∈ db.products ∧ Filter.sat P (.gt "discount" 25) d = true := by
    intro d
    simp only [getProductsDiscount, find, Response.documents, List.mem_filter]
  have fin : ∀ (d : Doc) (q : ℚ), d.lookup "discount" = some (.num (.fin q)) →
      (Filter.sat P (.gt "discount" 25) d = true ↔ 25 < q) := by
    intro d q hd
    simp [Filter.sat, hd, above, JNum.gt]
  refine ⟨rfl, ?_, ?_, ?_, ?_⟩
  · intro d
    rw [key, sat_gt_iff]
    simp only [JNum.gt_iff]
  · intro d q hm hd
    rw [key, fin d q hd]
    exact ⟨fun h => h.2, fun h => ⟨hm, h⟩⟩
  · intro d hd hmem
    have h := ((key d).1 hmem).2
    rw [fin d 25 hd] at h
    exact lt_irrefl _ h
  · intro d hm hd
    rw [key, fin d 26 hd]
    exact ⟨hm, by norm_num⟩

/-- C2 at the sample store: the product with discount 25 is left out, the ones
with discount 26 and with discount 51/2 are listed. -/
theorem getProductsDiscount_threshold_witness :
    ([("_id", .oid ⟨2⟩), ("category_name", .str "books"), ("discount", .num (.fin 25))] : Doc)
        ∉ (getProductsDiscount asciiPlatform ⟨none, ⟨0⟩⟩ sampleStore).response.documents
      ∧ ([("_id", .oid ⟨1⟩), ("category_name", .str "phones"),
            ("discount", .num (.fin 26))] : Doc)
        ∈ (getProductsDiscount asciiPlatform ⟨none, ⟨0⟩⟩ sampleStore).response.documents
      ∧ (([("_id", .oid ⟨4⟩), ("category_name", .str "toys"),
            ("discount", .num (.fin (mkRat 51 2)))] : Doc)
          ∈ (getProductsDiscount asciiPlatform ⟨none, ⟨0⟩⟩ sampleStore).response.documents
          ↔ (25 : ℚ) < mkRat 51 2) :=
  ⟨(getProductsDiscount_threshold asciiPlatform ⟨0⟩ sampleStore).2.2.2.1 _ (by decide),
   (getProductsDiscount_threshold asciiPlatform ⟨0⟩ sampleStore).2.2.2.2 _ (by decide)
     (by decide),
   (getProductsDiscount_threshold asciiPlatform ⟨0⟩ sampleStore).2.2.1 _ (mkRat 51 2)
     (by decide) (by decide)⟩

theorem sat_array_condition_on_string (P : Platform) (xs : List JVal) (s : String) (d : Doc)
    (hd : d.lookup "category_name" = some (.str s)) :
    queryFilter "category_name" [("category_name", .arr xs)] = .eq "category_name" (.arr xs)
      ∧ Filter.sat P (.eq "category_name" (.arr xs)) d = false := by
  constructor
  · simp [queryFilter, truthy, List.lookup]
  · have hne : ("category_name" = "_id") = False := by decide
    simp [Filter.sat, hne, eqMatch, hd]

theorem find?_eq_none_of_no_id (P : Platform) (c : List Doc) (v : JVal)
    (h : ∀ d ∈ c, d.lookup "_id" ≠ some v) :
    c.find? ((Filter.eq "_id" v).sat P) = none := by
  rw [List.find?_eq_none]
  intro d hd
  simpa [Filter.sat] using h d hd

/-- C3: for a well-formed identifier and a store call that succeeds,
`GET /products/:id` answers 404 exactly when no product has that `_id`;
otherwise it answers 200 with a product of that `_id` as body. -/
theorem getProductById_notFound_iff (P : Platform) (fresh : ObjectId) (db : Store)
    (id : String) (i : ObjectId) (hid : P.parseObjectId id = some i) :
    ((getProductById P ⟨none, fresh⟩ id db).response.status = 404
        ↔ ∀ d ∈ db.products, d.lookup "_id" ≠ some (.oid i))
      ∧ ((∃ d ∈ db.products, d.lookup "_id" = some (.oid i))
        → ∃ d ∈ db.products, d.lookup "_id" = some (.oid i)
            ∧ (getProductById P ⟨none, fresh⟩ id db).response = ⟨200, .doc d⟩) := by
  simp only [getProductById, hid, findOne]
  cases hf : db.products.find? ((Filter.eq "_id" (.oid i)).sat P) with
  | none =>
    have hnone := List.find?_eq_none.1 hf
    have hall : ∀ d ∈ db.products, d.lookup "_id" ≠ some (.oid i) := by
      intro d hd
      simpa [Filter.sat] using hnone d hd
    refine ⟨⟨fun _ => hall, fun _ => rfl⟩, ?_⟩
    rintro ⟨d, hd, he⟩
    exact absurd he (hall d hd)
  | some d =>
    have hmem := List.mem_of_find?_eq_some hf
    have hsat : d.lookup "_id" = some (.oid i) := by
      simpa [Filter.sat] using List.find?_some hf
    refine ⟨⟨fun h => by simp at h, fun h => absurd hsat (h d hmem)⟩, ?_⟩
    intro _
    exact ⟨d, hmem, hsat, rfl⟩

/-- C3 at a concrete identifier accepted by the hexadecimal constructor. -/
theorem getProductById_notFound_iff_witness :
    ((getProductById asciiPlatform ⟨none, ⟨0⟩⟩ "000000000000000000000002" sampleStore).response.status
          = 404
        ↔ ∀ d ∈ sampleStore.products, d.lookup "_id" ≠ some (.oid ⟨2⟩))
      ∧ ((∃ d ∈ sampleStore.products, d.lookup "_id" = some (.oid ⟨2⟩))
        → ∃ d ∈ sampleStore.products, d.lookup "_id" = some (.oid ⟨2⟩)
            ∧ (getProductById asciiPlatform ⟨none, ⟨0⟩⟩ "000000000000000000000002"
                sampleStore).response = ⟨200, .doc d⟩) :=
  getProductById_notFound_iff asciiPlatform ⟨0⟩ sampleStore "000000000000000000000002" ⟨2⟩
    (by decide)

/-- C4: for a well-formed identifier matching no document of `addProducts`,
`DELETE /addProducts/:id` answers 404 (when the store call itself does not
throw) and every collection after the request equals the one before. -/
theorem deleteAddProducts_missing (P : Platform) (o : Oracle) (db : Store)
    (id : String) (i : ObjectId) (hid : P.parseObjectId id = some i)
    (hmiss : ∀ d ∈ db.addProducts, d.lookup "_id" ≠ some (.oid i)) :
    (o.fault = none →
        (deleteAddProducts P o id db).response = ⟨404, .text "Product not found"⟩)
      ∧ (deleteAddProducts P o id db).store = db := by
  have hf := find?_eq_none_of_no_id P db.addProducts (.oid i) hmiss
  constructor
  · intro hok
    simp [deleteAddProducts, hid, deleteOne, hok, hf]
  · cases ho : o.fault with
    | some e => simp [deleteAddProducts, hid, deleteOne, ho]
    | none => simp [deleteAddProducts, hid, deleteOne, ho, hf]

/-- C4 at an identifier that no document of the sample store carries. -/
theorem deleteAddProducts_missing_witness :
    (deleteAddProducts asciiPlatform ⟨none, ⟨0⟩⟩ "000000000000000000000009" sampleStore).response
        = ⟨404, .text "Product not found"⟩
      ∧ (deleteAddProducts asciiPlatform ⟨none, ⟨0⟩⟩ "000000000000000000000009" sampleStore).store
        = sampleStore :=
  ⟨(deleteAddProducts_missing asciiPlatform ⟨none, ⟨0⟩⟩ sampleStore "000000000000000000000009" ⟨9⟩
      (by decide) (by decide)).1 rfl,
   (deleteAddProducts_missing asciiPlatform ⟨none, ⟨0⟩⟩ sampleStore "000000000000000000000009" ⟨9⟩
      (by decide) (by decide)).2⟩

theorem filter_id_of_lookup_none (b : Doc) (h : b.lookup "_id" = none) :
    b.filter (fun kv => kv.1 != "_id") = b := by
  induction b with
  | nil => rfl
  | cons kv rest ih =>
    obtain ⟨k, v⟩ := kv
    by_cases hk : k = "_id"
    · subst hk
      simp [List.lookup] at h
    · have hk2 : ("_id" == k) = false := by
        simpa using fun h2 : "_id" = k => hk h2.symm
      rw [List.lookup, hk2] at h
      have hk3 : (k != "_id") = true := by simpa using hk
      have h2 : rest.lookup "_id" = none := h
      rw [List.filter, hk3, ih h2]

theorem assignId_assigned (fresh : ObjectId) (b : Doc)
    (hb : b.lookup "_id" = none ∨ b.lookup "_id" = some .null) :
    assignId fresh b = ("_id", .oid fresh) :: b.filter (fun kv => kv.1 != "_id") := by
  rcases hb with hb | hb
  · simp only [assignId, hb]
    rw [filter_id_of_lookup_none b hb]
  · simp only [assignId, hb]

theorem postProducts_ok (o : Oracle) (b : Doc) (db : Store) (r : InsertResult)
    (hb : b.lookup "_id" = none ∨ b.lookup "_id" = some .null)
    (hpost : (postProducts o b db).response = ⟨200, .inserted r⟩) :
    r = ⟨true, .oid o.fresh⟩
      ∧ (∀ d ∈ db.products, d.lookup "_id" ≠ some (.oid o.fresh))
      ∧ (postProducts o b db).store
          = { db with products := db.products
                ++ [("_id", .oid o.fresh) :: b.filter (fun kv => kv.1 != "_id")] } := by
  have ha := assignId_assigned o.fresh b hb
  have hl : (("_id", JVal.oid o.fresh) :: b.filter (fun kv => kv.1 != "_id")).lookup "_id"
      = some (.oid o.fresh) := by
    simp [List.lookup]
  cases ho : o.fault with
  | some e => simp [postProducts, insertOne, ho] at hpost
  | none =>
    by_cases hdup : (db.products.any (fun d => d.lookup "_id" == some (JVal.oid o.fresh))) = true
    · simp [postProducts, insertOne, ho, ha, hl, hdup, JVal.isArr] at hpost
    · have hno : ∀ d ∈ db.products, d.lookup "_id" ≠ some (.oid o.fresh) := by
        intro d hd he
        exact hdup (List.any_eq_true.2 ⟨d, hd, by simp [he]⟩)
      have hpost2 := hpost
      simp only [postProducts, insertOne, ho, ha, hl, Option.getD_some, hdup, JVal.isArr,
        Bool.false_eq_true, if_false] at hpost2 ⊢
      refine ⟨?_, hno, trivial⟩
      have := congrArg Response.body hpost2
      simp at this
      exact this.symm

/-- C5 (counterexample): the posted body carries the number 9007199254740993;
`express.json()` leaves the nearest double 9007199254740992 in `req.body`, so
the document read back is not the posted body extended with `_id`. -/
theorem insert_round_trip_rounds_number :
    (postProducts ⟨none, ⟨5⟩⟩
          (asciiPlatform.jsonBody [("discount", .num (.fin 9007199254740993))])
          sampleStore).response
        = ⟨200, .inserted ⟨true, .oid ⟨5⟩⟩⟩
      ∧ (getProductById asciiPlatform ⟨none, ⟨0⟩⟩ "000000000000000000000005"
          (postProducts ⟨none, ⟨5⟩⟩
            (asciiPlatform.jsonBody [("discount", .num (.fin 9007199254740993))])
            sampleStore).store).response
        = ⟨200, .doc [("_id", .oid ⟨5⟩), ("discount", .num (.fin 9007199254740992))]⟩
      ∧ (getProductById asciiPlatform ⟨none, ⟨0⟩⟩ "000000000000000000000005"
          (postProducts ⟨none, ⟨5⟩⟩
            (asciiPlatform.jsonBody [("discount", .num (.fin 9007199254740993))])
            sampleStore).store).response
        ≠ ⟨200, .doc [("_id", .oid ⟨5⟩), ("discount", .num (.fin 9007199254740993))]⟩ := by
  decide

/-- C5 (amended): let w be the JSON object posted and `req.body` what
`express.json()` makes of it (every number a double).  If `req.body` has no
`_id` or a null one, and `POST /products` succeeds and returns the
store-assigned identifier i, then an immediately following `GET /products/i`
(whose store call succeeds) answers 200 with the document made of the field
`_id` = i followed by the other fields of `req.body`; when `req.body` has no
`_id` at all these are all its fields. -/
theorem insert_round_trip (P : Platform) (o o2 : Oracle) (db : Store) (w : Doc)
    (i : ObjectId) (s : String)
    (hb : (P.jsonBody w).lookup "_id" = none ∨ (P.jsonBody w).lookup "_id" = some .null)
    (hpost : (postProducts o (P.jsonBody w) db).response = ⟨200, .inserted ⟨true, .oid i⟩⟩)
    (hs : P.parseObjectId s = some i) (hget : o2.fault = none) :
    (getProductById P o2 s (postProducts o (P.jsonBody w) db).store).response
        = ⟨200, .doc (("_id", .oid i) :: (P.jsonBody w).filter (fun kv => kv.1 != "_id"))⟩
      ∧ ((P.jsonBody w).lookup "_id" = none
          → (P.jsonBody w).filter (fun kv => kv.1 != "_id") = P.jsonBody w) := by
  obtain ⟨hr, hfresh, hstore⟩ := postProducts_ok o (P.jsonBody w) db _ hb hpost
  have hi : i = o.fresh := by
    injection hr with _ h2
    injection h2
  subst hi
  refine ⟨?_, filter_id_of_lookup_none _⟩
  rw [hstore]
  have hnone := find?_eq_none_of_no_id P db.products (.oid o.fresh) hfresh
  simp [getProductById, hs, findOne, hget, List.find?_append, hnone, Filter.sat, List.lookup]

/-- C5 at a concrete nested body with a null `_id`, a fraction and an array,
inserted into the sample store under identifier 5. -/
theorem insert_round_trip_witness :
    (getProductById asciiPlatform ⟨none, ⟨0⟩⟩ "000000000000000000000005"
        (postProducts ⟨none, ⟨5⟩⟩
          (asciiPlatform.jsonBody
            [("category_name", .str "toys"), ("_id", .null),
             ("discount", .num (.fin (mkRat 51 2))),
             ("tags", .arr [.str "new", .doc [("rank", .num (.fin 1))]])])
          sampleStore).store).response
      = ⟨200, .doc (("_id", .oid ⟨5⟩) ::
          (asciiPlatform.jsonBody
            [("category_name", .str "toys"), ("_id", .null),
             ("discount", .num (.fin (mkRat 51 2))),
             ("tags", .arr [.str "new", .doc [("rank", .num (.fin 1))]])]).filter
            (fun kv => kv.1 != "_id"))⟩ :=
  (insert_round_trip asciiPlatform ⟨none, ⟨5⟩⟩ ⟨none, ⟨0⟩⟩ sampleStore
    [("category_name", .str "toys"), ("_id", .null),
     ("discount", .num (.fin (mkRat 51 2))),
     ("tags", .arr [.str "new", .doc [("rank", .num (.fin 1))]])] ⟨5⟩
    "000000000000000000000005" (by decide) (by decide) (by decide) rfl).1

/-- C6: for a path parameter the identifier constructor rejects, both
identifier routes answer 500 with the fixed text `Internal Server Error`,
issue no store operation and leave every collection unchanged. -/
theorem unparseable_id_server_error (P : Platform) (o : Oracle) (db : Store) (id : String)
    (hid : P.parseObjectId id = none) :
    ((getProductById P o id db).response = ⟨500, .text "Internal Server Error"⟩
        ∧ (getProductById P o id db).ops = []
        ∧ (getProductById P o id db).store = db)
      ∧ ((deleteAddProducts P o id db).response = ⟨500, .text "Internal Server Error"⟩
        ∧ (deleteAddProducts P o id db).ops = []
        ∧ (deleteAddProducts P o id db).store = db) := by
  simp [getProductById, deleteAddProducts, hid]

/-- C6 at the path parameter `discount`, which is no hexadecimal identifier. -/
theorem unparseable_id_server_error_witness :
    ((getProductById asciiPlatform ⟨none, ⟨0⟩⟩ "discount" sampleStore).response
          = ⟨500, .text "Internal Server Error"⟩
        ∧ (getProductById asciiPlatform ⟨none, ⟨0⟩⟩ "discount" sampleStore).ops = []
        ∧ (getProductById asciiPlatform ⟨none, ⟨0⟩⟩ "discount" sampleStore).store = sampleStore)
      ∧ ((deleteAddProducts asciiPlatform ⟨none, ⟨0⟩⟩ "discount" sampleStore).response
          = ⟨500, .text "Internal Server Error"⟩
        ∧ (deleteAddProducts asciiPlatform ⟨none, ⟨0⟩⟩ "discount" sampleStore).ops = []
        ∧ (deleteAddProducts asciiPlatform ⟨none, ⟨0⟩⟩ "discount" sampleStore).store = sampleStore) :=
  unparseable_id_server_error asciiPlatform ⟨none, ⟨0⟩⟩ sampleStore "discount" (by decide)

/-- C7: every store-backed handler has one fixed text such that, whatever
error its store operation raises, the response is 500 with that text; the
same holds whenever its `catch` block runs at all.  Two runs that differ only
in the store error therefore give identical responses. -/
theorem store_failure_generic (P : Platform) (h : Handler) (hne : h ≠ .root) :
    ∃ msg : String,
      (∀ (e : StoreError) (fresh : ObjectId) (inp : Input) (db : Store),
          (runHandler P h ⟨some e, fresh⟩ inp db).response = ⟨500, .text msg⟩)
      ∧ (∀ (o : Oracle) (inp : Input) (db : Store),
          (runHandler P h o inp db).log ≠ [] →
            (runHandler P h o inp db).response = ⟨500, .text msg⟩)
      ∧ (∀ (e1 e2 : StoreError) (fresh : ObjectId) (inp : Input) (db : Store),
          (runHandler P h ⟨some e1, fresh⟩ inp db).response
            = (runHandler P h ⟨some e2, fresh⟩ inp db).response) := by
  cases h with
  | root => exact absurd rfl hne
  | category =>
    refine ⟨"Internal server error", ?_, ?_, ?_⟩
    · intro e fresh inp db; rfl
    · intro o inp db
      cases ho : o.fault <;> simp [runHandler, getCategory, find, ho]
    · intro e1 e2 fresh inp db; rfl
  | listProducts =>
    refine ⟨"Internal server error", ?_, ?_, ?_⟩
    · intro e fresh inp db; rfl
    · intro o inp db
      cases ho : o.fault <;> simp [runHandler, getProducts, find, ho]
    · intro e1 e2 fresh inp db; rfl
  | discount =>
    refine ⟨"Internal Server Error", ?_, ?_, ?_⟩
    · intro e fresh inp db; rfl
    · intro o inp db
      cases ho : o.fault <;> simp [runHandler, getProductsDiscount, find, ho]
    · intro e1 e2 fresh inp db; rfl
  | listComments =>
    refine ⟨"Internal Server Error", ?_, ?_, ?_⟩
    · intro e fresh inp db; rfl
    · intro o inp db
      cases ho : o.fault <;> simp [runHandler, getComment, find, ho]
    · intro e1 e2 fresh inp db; rfl
  | listAddProducts =>
    refine ⟨"Internal Server Error", ?_, ?_, ?_⟩
    · intro e fresh inp db; rfl
    · intro o inp db
      cases ho : o.fault <;> simp [runHandler, getAddProducts, find, ho]
    · intro e1 e2 fresh inp db; rfl
  | sorts =>
    refine ⟨"Internal Server Error", ?_, ?_, ?_⟩
    · intro e fresh inp db; rfl
    · intro o inp db
      cases ho : o.fault <;> simp [runHandler, getSorts, find, ho]
    · intro e1 e2 fresh inp db; rfl
  | insertProduct =>
    refine ⟨"Internal Server Error", ?_, ?_, ?_⟩
    · intro e fresh inp db; rfl
    · intro o inp db
      simp only [runHandler, postProducts]
      cases hi : insertOne o inp.body db.products with
      | error e => simp
      | ok r => simp
    · intro e1 e2 fresh inp db; rfl
  | insertComment =>
    refine ⟨"Internal Server Error", ?_, ?_, ?_⟩
    · intro e fresh inp db; rfl
    · intro o inp db
      simp only [runHandler, postComment]
      cases hi : insertOne o inp.body db.comment with
      | error e => simp
      | ok r => simp
    · intro e1 e2 fresh inp db; rfl
  | insertAddProduct =>
    refine ⟨"Internal Server Error", ?_, ?_, ?_⟩
    · intro e fresh inp db; rfl
    · intro o inp db
      simp only [runHandler, postAddProducts]
      cases hi : insertOne o inp.body db.addProducts with
      | error e => simp
      | ok r => simp
    · intro e1 e2 fresh inp db; rfl
  | productById =>
    have key : ∀ (o : Oracle) (inp : Input) (db : Store),
        (o.fault ≠ none ∨ (runHandler P .productById o inp db).log ≠ []) →
          (runHandler P .productById o inp db).response
            = ⟨500, .text "Internal Server Error"⟩ := by
      intro o inp db
      simp only [runHandler, getProductById, findOne]
      cases hp : P.parseObjectId inp.id with
      | none => simp
      | some i =>
        cases ho : o.fault with
        | some e => simp
        | none =>
          cases hf : db.products.find? ((Filter.eq "_id" (.oid i)).sat P) <;> simp [hf]
    refine ⟨"Internal Server Error", ?_, ?_, ?_⟩
    · intro e fresh inp db
      exact key ⟨some e, fresh⟩ inp db (Or.inl (by simp))
    · intro o inp db hlog
      exact key o inp db (Or.inr hlog)
    · intro e1 e2 fresh inp db
      rw [key ⟨some e1, fresh⟩ inp db (Or.inl (by simp)),
        key ⟨some e2, fresh⟩ inp db (Or.inl (by simp))]
  | deleteAddProduct =>
    have key : ∀ (o : Oracle) (inp : Input) (db : Store),
        (o.fault ≠ none ∨ (runHandler P .deleteAddProduct o inp db).log ≠ []) →
          (runHandler P .deleteAddProduct o inp db).response
            = ⟨500, .text "Internal Server Error"⟩ := by
      intro o inp db
      simp only [runHandler, deleteAddProducts, deleteOne]
      cases hp : P.parseObjectId inp.id with
      | none => simp
      | some i =>
        cases ho : o.fault with
        | some e => simp
        | none =>
          cases hf : db.addProducts.find? ((Filter.eq "_id" (.oid i)).sat P) <;> simp [hf]
    refine ⟨"Internal Server Error", ?_, ?_, ?_⟩
    · intro e fresh inp db
      exact key ⟨some e, fresh⟩ inp db (Or.inl (by simp))
    · intro o inp db hlog
      exact key o inp db (Or.inr hlog)
    · intro e1 e2 fresh inp db
      rw [key ⟨some e1, fresh⟩ inp db (Or.inl (by simp)),
        key ⟨some e2, fresh⟩ inp db (Or.inl (by simp))]

/-- C7 at the handler of `GET /products`. -/
theorem store_failure_generic_witness :
    ∃ msg : String,
      (∀ (e : StoreError) (fresh : ObjectId) (inp : Input) (db : Store),
          (runHandler asciiPlatform .listProducts ⟨some e, fresh⟩ inp db).response
            = ⟨500, .text msg⟩)
      ∧ (∀ (o : Oracle) (inp : Input) (db : Store),
          (runHandler asciiPlatform .listProducts o inp db).log ≠ [] →
            (runHandler asciiPlatform .listProducts o inp db).response = ⟨500, .text msg⟩)
      ∧ (∀ (e1 e2 : StoreError) (fresh : ObjectId) (inp : Input) (db : Store),
          (runHandler asciiPlatform .listProducts ⟨some e1, fresh⟩ inp db).response
            = (runHandler asciiPlatform .listProducts ⟨some e2, fresh⟩ inp db).response) :=
  store_failure_generic asciiPlatform .listProducts (by decide)

theorem connectToDatabase_inv (a : Except StoreError Client) (s : Process)
    (h : CacheInv s) : CacheInv (connectToDatabase a s).2 := by
  rcases h with ⟨hd, hc, ho⟩ | ⟨c, hd, hc, ho⟩
  · cases a with
    | error e => simp only [connectToDatabase, hd]; exact Or.inl ⟨hd, hc, ho⟩
    | ok c => simp only [connectToDatabase, hd]; exact Or.inr ⟨c, rfl, rfl, by simp [ho]⟩
  · simp only [connectToDatabase, hd]
    exact Or.inr ⟨c, hd, hc, ho⟩

theorem connectAll_inv (as : List (Except StoreError Client)) (s : Process)
    (h : CacheInv s) : CacheInv (connectAll as s) := by
  induction as generalizing s with
  | nil => exact h
  | cons a rest ih => exact ih _ (connectToDatabase_inv a s h)

theorem connectToDatabase_cached_fix (a : Except StoreError Client) (s : Process)
    (db : Db) (h : s.cachedDb = some db) :
    connectToDatabase a s = (.ok ⟨s.cachedClient, db⟩, s) := by
  simp [connectToDatabase, h]

theorem connectAll_cached_fix (as : List (Except StoreError Client)) (s : Process)
    (db : Db) (h : s.cachedDb = some db) : connectAll as s = s := by
  induction as with
  | nil => rfl
  | cons a rest ih => simp [connectAll, connectToDatabase_cached_fix a s db h, ih]

theorem connectToDatabase_ok_cached (a : Except StoreError Client) (s : Process)
    (sess : Session) (h : (connectToDatabase a s).1 = .ok sess) :
    (connectToDatabase a s).2.cachedDb = some sess.db
      ∧ (connectToDatabase a s).2.cachedClient = sess.client := by
  unfold connectToDatabase at h ⊢
  cases hd : s.cachedDb with
  | some db =>
    simp only [hd] at h ⊢
    injection h with h
    subst h
    exact ⟨rfl, rfl⟩
  | none =>
    cases a with
    | error e => simp [hd] at h
    | ok c =>
      simp only [hd] at h ⊢
      injection h with h
      subst h
      exact ⟨rfl, rfl⟩

/-- C8: once a call of `connectToDatabase` has succeeded, every later call
(whatever its own connection attempt would give) returns the same client and
database handle and leaves the process state untouched, so the number of
connections opened since process start stays at one; a call whose connection
attempt fails leaves both cache variables empty. -/
theorem connectToDatabase_idempotent :
    (∀ (before later : List (Except StoreError Client)) (a a2 : Except StoreError Client)
        (sess : Session),
        (connectToDatabase a (connectAll before Process.init)).1 = .ok sess →
          (connectToDatabase a2
              (connectAll later (connectToDatabase a (connectAll before Process.init)).2)).1
              = .ok sess
            ∧ (connectToDatabase a2
              (connectAll later (connectToDatabase a (connectAll before Process.init)).2)).2
              = (connectToDatabase a (connectAll before Process.init)).2
            ∧ (connectToDatabase a (connectAll before Process.init)).2.opened.length = 1)
      ∧ (∀ (before : List (Except StoreError Client)) (a : Except StoreError Client)
          (e : StoreError),
          (connectToDatabase a (connectAll before Process.init)).1 = .error e →
            (connectToDatabase a (connectAll before Process.init)).2.cachedClient = none
              ∧ (connectToDatabase a (connectAll before Process.init)).2.cachedDb = none
              ∧ (connectToDatabase a (connectAll before Process.init)).2.opened = []) := by
  have hinit : CacheInv Process.init := Or.inl ⟨rfl, rfl, rfl⟩
  constructor
  · intro before later a a2 sess h
    have hinv := connectToDatabase_inv a _ (connectAll_inv before _ hinit)
    obtain ⟨hdb, hcl⟩ := connectToDatabase_ok_cached a _ sess h
    rw [connectAll_cached_fix later _ sess.db hdb,
      connectToDatabase_cached_fix a2 _ sess.db hdb, hcl]
    refine ⟨rfl, rfl, ?_⟩
    rcases hinv with ⟨hd, _, _⟩ | ⟨c, _, _, ho⟩
    · rw [hd] at hdb; cases hdb
    · simp [ho]
  · intro before a e h
    have hinv := connectAll_inv before _ hinit
    generalize connectAll before Process.init = s at h hinv ⊢
    rcases hinv with ⟨hd, hc, ho⟩ | ⟨c, hd, _, _⟩
    · cases a with
      | error e2 => simp [connectToDatabase, hd, hc, ho]
      | ok c => simp [connectToDatabase, hd] at h
    · simp [connectToDatabase, hd] at h

/-- C8 on concrete call sequences: a failure, a success, then further calls. -/
theorem connectToDatabase_idempotent_witness :
    ((connectToDatabase (.ok ⟨9⟩)
          (connectAll [.error ⟨6, "down"⟩, .ok ⟨8⟩]
            (connectToDatabase (.ok ⟨3⟩) (connectAll [.error ⟨6, "down"⟩] Process.init)).2)).1
          = .ok ⟨some ⟨3⟩, ⟨⟨3⟩, "QuickBazaarDB"⟩⟩
        ∧ (connectToDatabase (.ok ⟨9⟩)
          (connectAll [.error ⟨6, "down"⟩, .ok ⟨8⟩]
            (connectToDatabase (.ok ⟨3⟩) (connectAll [.error ⟨6, "down"⟩] Process.init)).2)).2
          = (connectToDatabase (.ok ⟨3⟩) (connectAll [.error ⟨6, "down"⟩] Process.init)).2
        ∧ (connectToDatabase (.ok ⟨3⟩)
            (connectAll [.error ⟨6, "down"⟩] Process.init)).2.opened.length = 1)
      ∧ ((connectToDatabase (.error ⟨6, "down"⟩) (connectAll [] Process.init)).2.cachedClient = none
        ∧ (connectToDatabase (.error ⟨6, "down"⟩) (connectAll [] Process.init)).2.cachedDb = none
        ∧ (connectToDatabase (.error ⟨6, "down"⟩) (connectAll [] Process.init)).2.opened = []) :=
  ⟨connectToDatabase_idempotent.1 [.error ⟨6, "down"⟩] [.error ⟨6, "down"⟩, .ok ⟨8⟩]
      (.ok ⟨3⟩) (.ok ⟨9⟩) ⟨some ⟨3⟩, ⟨⟨3⟩, "QuickBazaarDB"⟩⟩ rfl,
   connectToDatabase_idempotent.2 [] (.error ⟨6, "down"⟩) ⟨6, "down"⟩ rfl⟩

theorem startup_failed (port : String) (e : StoreError) (ping : Option StoreError) :
    startup port (.error e) ping
      = ⟨none, none, [], [rootRoute], true,
          [.info ("Quick Bazaar Server is running on port " ++ port),
           .error "Error connecting to MongoDB:" (.store e)]⟩ := by
  rfl

theorem startup_ok_routes (port : String) (c : Client) (ping : Option StoreError) :
    (startup port (.ok c) ping).routes = rootRoute :: storeRoutes := by
  cases ping <;> rfl

theorem findRoute_storeRoutes_nil (m : Method) : findRoute storeRoutes m [] = none := by
  cases m <;> rfl

theorem findRoute_root_cons (m : Method) (s : String) (rest : List String) :
    findRoute [rootRoute] m (s :: rest) = none := by
  cases m <;> simp [findRoute, rootRoute, matchSegs]

theorem findRoute_root_of_store (m : Method) (path : List String)
    (h : (findRoute storeRoutes m path).isSome = true) : findRoute [rootRoute] m path = none := by
  cases path with
  | nil => simp [findRoute_storeRoutes_nil] at h
  | cons s rest => exact findRoute_root_cons m s rest

/-- C9 (counterexample): after a failed initial connection a request for
`GET /products` matches no registered route; it is answered by the framework's
default 404 page, not by the route's handler with a 500. -/
theorem failed_start_products_unmatched :
    dispatch asciiPlatform (startup "5000" (.error ⟨6, "down"⟩) none).routes .GET ["products"]
        = .unmatched
      ∧ (serve asciiPlatform (startup "5000" (.error ⟨6, "down"⟩) none) ⟨none, ⟨0⟩⟩
          ⟨.GET, ["products"], [], []⟩ sampleStore).response
        = ⟨404, .html "Cannot GET /products"⟩
      ∧ (serve asciiPlatform (startup "5000" (.error ⟨6, "down"⟩) none) ⟨none, ⟨0⟩⟩
          ⟨.GET, ["products"], [], []⟩ sampleStore).response.status ≠ 500 := by
  decide

/-- C9 (amended): if the initial connection attempt fails, the failure is
caught and logged, the process keeps listening, the root route still answers
with the static text, and no store-backed route has been registered: every
later request that a store-backed route would match is matched by no route
and answered by the framework's default 404 page, without any handler of the
application running and without any store operation. -/
theorem failed_start_behaviour (P : Platform) (port : String) (e : StoreError)
    (ping : Option StoreError) (o : Oracle) (db : Store) :
    (startup port (.error e) ping).listening = true
      ∧ LogEntry.error "Error connecting to MongoDB:" (.store e)
          ∈ (startup port (.error e) ping).log
      ∧ (startup port (.error e) ping).cachedDb = none
      ∧ (startup port (.error e) ping).routes = [rootRoute]
      ∧ (∀ (q : List (String × JVal)) (b : Doc),
          serve P (startup port (.error e) ping) o ⟨.GET, [], q, b⟩ db
            = ⟨⟨200, .text "Quick Bazaar Server"⟩, db, [], []⟩)
      ∧ (∀ req : Request, (findRoute storeRoutes req.method req.path).isSome = true →
          dispatch P (startup port (.error e) ping).routes req.method req.path = .unmatched
            ∧ serve P (startup port (.error e) ping) o req db
              = ⟨⟨404, .html ("Cannot " ++ req.method.name ++ " " ++ pathText req.path)⟩,
                  db, [], []⟩) := by
  rw [startup_failed]
  refine ⟨rfl, by simp, rfl, rfl, ?_, ?_⟩
  · intro q b
    rfl
  · intro req h
    have hr := findRoute_root_of_store req.method req.path h
    simp [serve, dispatch, hr]

/-- C9 at a `DELETE /addProducts/:id` request after a failed start. -/
theorem failed_start_behaviour_witness :
    dispatch asciiPlatform (startup "5000" (.error ⟨6, "down"⟩) none).routes .DELETE
        ["addProducts", "000000000000000000000007"] = .unmatched
      ∧ serve asciiPlatform (startup "5000" (.error ⟨6, "down"⟩) none) ⟨none, ⟨0⟩⟩
          ⟨.DELETE, ["addProducts", "000000000000000000000007"], [], []⟩ sampleStore
        = ⟨⟨404, .html ("Cannot " ++ Method.DELETE.name ++ " "
              ++ pathText ["addProducts", "000000000000000000000007"])⟩, sampleStore, [], []⟩ :=
  (failed_start_behaviour asciiPlatform "5000" ⟨6, "down"⟩ none ⟨none, ⟨0⟩⟩ sampleStore).2.2.2.2.2
    ⟨.DELETE, ["addProducts", "000000000000000000000007"], [], []⟩ (by decide)

theorem lower_products : lower "products" = "products" := by decide
theorem lower_discount : lower "discount" = "discount" := by decide
theorem lower_category : lower "category" = "category" := by decide

/-- C10 (counterexample): the single path segment `Discount` differs from
`discount`, yet `GET /products/Discount` is dispatched to the discount-listing
handler and not to the lookup handler with id `Discount`. -/
theorem products_Discount_goes_to_discount :
    "Discount" ≠ "discount"
      ∧ dispatch asciiPlatform (startup "5000" (.ok ⟨1⟩) none).routes .GET ["products", "Discount"]
        = .handler .discount []
      ∧ dispatch asciiPlatform (startup "5000" (.ok ⟨1⟩) none).routes .GET ["products", "Discount"]
        ≠ .handler .productById [("id", "Discount")] := by
  decide

/-- C10 (amended): with the route table of a started server matched in
registration order, `GET /products/discount` (in any letter case of the last
segment) is dispatched to the discount-listing handler and never to the lookup
handler; for every other non-empty single path segment s, `GET /products/s` is
dispatched to the lookup-by-identifier handler with id the percent-decoded s
(s itself when it has no escape). -/
theorem products_route_precedence (P : Platform) (port : String) (c : Client)
    (ping : Option StoreError) (o : Oracle) (db : Store) :
    dispatch P (startup port (.ok c) ping).routes .GET ["products", "discount"]
        = .handler .discount []
      ∧ (∀ s : String, lower s = "discount" →
          dispatch P (startup port (.ok c) ping).routes .GET ["products", s]
            = .handler .discount [])
      ∧ (∀ s t : String, s ≠ "" → lower s ≠ "discount" → P.decodeURIComponent s = some t →
          dispatch P (startup port (.ok c) ping).routes .GET ["products", s]
              = .handler .productById [("id", t)]
            ∧ ∀ (q : List (String × JVal)) (b : Doc),
                serve P (startup port (.ok c) ping) o ⟨.GET, ["products", s], q, b⟩ db
                  = getProductById P o t db) := by
  rw [startup_ok_routes]
  have hd : ∀ s : String, lower s = "discount" →
      dispatch P (rootRoute :: storeRoutes) .GET ["products", s] = .handler .discount [] := by
    intro s hs
    simp [dispatch, findRoute, storeRoutes, rootRoute, matchSegs, lower_products,
      lower_discount, lower_category, hs, decodeParams]
  refine ⟨hd "discount" lower_discount, hd, ?_⟩
  intro s t hne hlow hdec
  have hdisp : dispatch P (rootRoute :: storeRoutes) .GET ["products", s]
      = .handler .productById [("id", t)] := by
    simp [dispatch, findRoute, storeRoutes, rootRoute, matchSegs, lower_products,
      lower_discount, lower_category, hlow, hne, decodeParams, hdec]
  refine ⟨hdisp, ?_⟩
  intro q b
  simp only [serve, startup_ok_routes, hdisp]
  simp [runHandler, List.lookup]

/-- C10 at a concrete identifier segment. -/
theorem products_route_precedence_witness :
    dispatch asciiPlatform (startup "5000" (.ok ⟨1⟩) none).routes .GET
        ["products", "000000000000000000000002"]
      = .handler .productById [("id", "000000000000000000000002")]
      ∧ ∀ (q : List (String × JVal)) (b : Doc),
          serve asciiPlatform (startup "5000" (.ok ⟨1⟩) none) ⟨none, ⟨0⟩⟩
              ⟨.GET, ["products", "000000000000000000000002"], q, b⟩ sampleStore
            = getProductById asciiPlatform ⟨none, ⟨0⟩⟩ "000000000000000000000002" sampleStore :=
  (products_route_precedence asciiPlatform "5000" ⟨1⟩ none ⟨none, ⟨0⟩⟩ sampleStore).2.2
    "000000000000000000000002" "000000000000000000000002" (by decide) (by decide) (by decide)

end QuickBazaar
